import Mathlib

/-!
Verification development for the flood-detection pipeline
(`date_utilize.py`, `threshold.py`, `mosaic.py`, `filter.py`, `opticalflood.py`).

Each namespace is a shallow embedding of one source module.  Machine floats of
the original code are modelled as `ℚ`, Earth Engine rasters as functions from a
pixel type, image collections as lists, and fallible operations as `Option`.
-/

namespace DateUtil

/-!
Embedding of `date_utilize.py` (`get_date_ranges`).  The Python code delegates
to `datetime.strptime('%Y-%m-%d')`, `timedelta` addition and
`strftime('%Y-%m-%d')`.  Those library operations are modelled faithfully:

* `strptime('%Y-%m-%d')` matches exactly four digits for `%Y` and one or two
  digits for `%m` / `%d`, then the `datetime` constructor validates the
  calendar date (year between `MINYEAR = 1` and `MAXYEAR = 9999`);
* `date + timedelta(days=k)` is exact proleptic-Gregorian day arithmetic and
  raises `OverflowError` when the result leaves years `1..9999` (modelled as
  `none`);
* `strftime('%Y-%m-%d')` zero-pads month and day to two digits; the platform
  `%Y` conversion emits the year as an unpadded decimal (three digits for year
  999, for example).
-/

/-- Gregorian leap-year predicate (divisible by 4 and not by 100, or by 400). -/
def isLeap (y : ℕ) : Bool :=
  y % 4 == 0 && (y % 100 != 0 || y % 400 == 0)

/-- Number of days in month `m` of year `y` (months numbered 1..12). -/
def daysInMonth (y m : ℕ) : ℕ :=
  if m = 2 then (if isLeap y then 29 else 28)
  else if m = 4 ∨ m = 6 ∨ m = 9 ∨ m = 11 then 30
  else 31

/-- A calendar date, mirroring `datetime.date`. -/
structure Date where
  year : ℕ
  month : ℕ
  day : ℕ
deriving DecidableEq, Repr

/-- Valid calendar dates representable by Python `datetime`
(`MINYEAR = 1`, `MAXYEAR = 9999`). -/
def validDate (dt : Date) : Prop :=
  1 ≤ dt.year ∧ dt.year ≤ 9999 ∧ 1 ≤ dt.month ∧ dt.month ≤ 12 ∧
    1 ≤ dt.day ∧ dt.day ≤ daysInMonth dt.year dt.month

instance : DecidablePred validDate := fun dt => by
  unfold validDate; infer_instance

/-- The next calendar day; `none` when leaving the representable range
(`OverflowError` in `datetime`). -/
def succDate (dt : Date) : Option Date :=
  if dt.day < daysInMonth dt.year dt.month then some ⟨dt.year, dt.month, dt.day + 1⟩
  else if dt.month < 12 then some ⟨dt.year, dt.month + 1, 1⟩
  else if dt.year < 9999 then some ⟨dt.year + 1, 1, 1⟩
  else none

/-- The previous calendar day; `none` when leaving the representable range. -/
def predDate (dt : Date) : Option Date :=
  if 1 < dt.day then some ⟨dt.year, dt.month, dt.day - 1⟩
  else if 1 < dt.month then some ⟨dt.year, dt.month - 1, daysInMonth dt.year (dt.month - 1)⟩
  else if 1 < dt.year then some ⟨dt.year - 1, 12, 31⟩
  else none

/-- Iterated successor: `dt + n` days. -/
def addDaysNat (dt : Date) : ℕ → Option Date
  | 0 => some dt
  | n + 1 => (succDate dt).bind (addDaysNat · n)

/-- Iterated predecessor: `dt - n` days. -/
def subDaysNat (dt : Date) : ℕ → Option Date
  | 0 => some dt
  | n + 1 => (predDate dt).bind (subDaysNat · n)

/-- Model of `dt + datetime.timedelta(days=k)`: exact calendar arithmetic with
month and year rollover, `none` on `OverflowError`. -/
def addDays (dt : Date) (k : ℤ) : Option Date :=
  if 0 ≤ k then addDaysNat dt k.toNat else subDaysNat dt (-k).toNat

/-- Value of a nonempty all-digit character list read in base 10, else `none`. -/
def digitsToNat? (cs : List Char) : Option ℕ :=
  if cs ≠ [] ∧ cs.all Char.isDigit then
    some (cs.foldl (fun acc c => 10 * acc + (c.toNat - 48)) 0)
  else none

/-- Model of `datetime.strptime(s, '%Y-%m-%d')`: three dash-separated digit
groups (`%Y` exactly four digits, `%m` and `%d` one or two digits), then the
constructor validates the calendar date.  `none` models `ValueError`. -/
def parseDate (s : String) : Option Date :=
  match s.data.splitOn '-' with
  | [ys, ms, ds] =>
    match digitsToNat? ys, digitsToNat? ms, digitsToNat? ds with
    | some y, some m, some d =>
      if ys.length = 4 ∧ ms.length ≤ 2 ∧ ds.length ≤ 2 ∧
          1 ≤ y ∧ 1 ≤ m ∧ m ≤ 12 ∧ 1 ≤ d ∧ d ≤ daysInMonth y m then
        some ⟨y, m, d⟩
      else none
    | _, _, _ => none
  | _ => none

/-- Fuel-driven helper for decimal rendering; with fuel at least `n` it yields
the decimal digits of `n`, most significant first. -/
def natDigitsAux : ℕ → ℕ → List Char
  | 0, n => [Char.ofNat (48 + n % 10)]
  | fuel + 1, n =>
    if n < 10 then [Char.ofNat (48 + n)]
    else natDigitsAux fuel (n / 10) ++ [Char.ofNat (48 + n % 10)]

/-- Decimal digits of `n`, most significant first (unpadded, as the platform
`strftime` renders `%Y`). -/
def natDigits (n : ℕ) : List Char := natDigitsAux n n

/-- Two-digit zero-padded rendering, as `strftime` renders `%m` and `%d`. -/
def pad2 (n : ℕ) : List Char :=
  if n < 10 then '0' :: natDigits n else natDigits n

/-- Model of `dt.strftime('%Y-%m-%d')`. -/
def formatDate (dt : Date) : String :=
  ⟨natDigits dt.year ++ '-' :: pad2 dt.month ++ '-' :: pad2 dt.day⟩

/-- A string is in `YYYY-MM-DD` format: four digits, dash, two digits, dash,
two digits. -/
def IsYMDFormat (s : String) : Prop :=
  ∃ ys ms ds : List Char,
    s.data = ys ++ '-' :: ms ++ '-' :: ds ∧
    ys.length = 4 ∧ ms.length = 2 ∧ ds.length = 2 ∧
    (ys ++ ms ++ ds).all Char.isDigit = true

/-- Embedding of `get_date_ranges` from `date_utilize.py` (the Python defaults
are `days_before_start = 30`, `days_before_end = 1`; callers pass them
explicitly here).  `none` models a raised `ValueError` / `OverflowError`. -/
def get_date_ranges (event_date_str : String) (post_lag : ℤ)
    (days_before_start days_before_end : ℤ) :
    Option (String × String × String × String) :=
  (parseDate event_date_str).bind fun event_date =>
  (addDays event_date 1).bind fun post_start =>
  (addDays event_date post_lag).bind fun post_end =>
  (addDays event_date (-days_before_start)).bind fun ref_start =>
  (addDays event_date (-days_before_end)).map fun ref_end =>
  (formatDate post_start, formatDate post_end, formatDate ref_start, formatDate ref_end)

end DateUtil

namespace Threshold

/-!
Embedding of `threshold.py` (`classify_kmeans`).  Pixels of the 10 m AOI grid
are abstract identifiers; the NDWI raster is a function from pixels to `ℚ`;
the trained `wekaKMeans` clusterer (remote, seeded sampling) is an abstract
per-value cluster assignment `ℚ → ℤ`.  `reduceRegion(mean)` over the pixels
of one cluster returns `none` when the cluster holds no pixels (the Earth
Engine null); `ee.List.reduce(Reducer.max())` skips null inputs, and
`ee.List.indexOf` returns the first matching index, `-1` when absent.
-/

/-- Pixel identifiers of the AOI grid sampled at 10 m. -/
abbrev Px := ℕ

/-- The clustered image: every pixel is assigned the cluster of its NDWI
value, mirroring `ndwi_img.cluster(clusterer)`. -/
def clustered (ndwi : Px → ℚ) (clusterer : ℚ → ℤ) (p : Px) : ℤ :=
  clusterer (ndwi p)

/-- Mean NDWI over the AOI pixels assigned to cluster `i`, mirroring
`masked_ndwi.reduceRegion(ee.Reducer.mean(), aoi, 10).get('NDWI')`; `none`
models the null returned when the cluster has no pixels. -/
def clusterMean (pixels : List Px) (ndwi : Px → ℚ) (clusterer : ℚ → ℤ) (i : ℤ) :
    Option ℚ :=
  let vals := (pixels.filter fun p => decide (clustered ndwi clusterer p = i)).map ndwi
  if vals.length = 0 then none else some (vals.sum / vals.length)

/-- The `means` list built by the `for i in range(n_clusters)` loop. -/
def clusterMeans (pixels : List Px) (ndwi : Px → ℚ) (clusterer : ℚ → ℤ)
    (n_clusters : ℕ) : List (Option ℚ) :=
  (List.range n_clusters).map fun i => clusterMean pixels ndwi clusterer (i : ℤ)

/-- `ee.List(means).reduce(ee.Reducer.max())`: reducers skip null inputs, so
the result is the maximum of the defined entries (`none` iff all are null). -/
def reduceMax (l : List (Option ℚ)) : Option ℚ :=
  l.foldl
    (fun acc o =>
      match acc, o with
      | none, o => o
      | some a, none => some a
      | some a, some b => some (max a b))
    none

/-- `ee.List.indexOf`: index of the first occurrence, `-1` when absent. -/
def indexOf (l : List (Option ℚ)) (v : Option ℚ) : ℤ :=
  match l.findIdx? (fun o => decide (o = v)) with
  | some i => (i : ℤ)
  | none => -1

/-- `flood_cluster = ee.List(means).indexOf(ee.List(means).reduce(max))`. -/
def floodCluster (pixels : List Px) (ndwi : Px → ℚ) (clusterer : ℚ → ℤ)
    (n_clusters : ℕ) : ℤ :=
  indexOf (clusterMeans pixels ndwi clusterer n_clusters)
    (reduceMax (clusterMeans pixels ndwi clusterer n_clusters))

/-- The returned binary mask `flood_mask = clustered.eq(flood_cluster)`
(band `flood_class`, 1 = flood, 0 = non-flood). -/
def classify_kmeans (pixels : List Px) (ndwi : Px → ℚ) (clusterer : ℚ → ℤ)
    (n_clusters : ℕ) (p : Px) : ℤ :=
  if clustered ndwi clusterer p = floodCluster pixels ndwi clusterer n_clusters
  then 1 else 0

/-- Concrete NDWI raster used for evaluation: pixel 1 has NDWI 1, all other
pixels NDWI 0. -/
def exNdwi : Px → ℚ := fun p => if p = 1 then 1 else 0

/-- Concrete clusterer: values below 1/2 fall in cluster 0, the rest in
cluster 1. -/
def exClusterer : ℚ → ℤ := fun v => if v < 1 / 2 then 0 else 1

/-- Concrete NDWI raster for the exact-tie scenario: pixels 0, 1, 2 carry
NDWI -1, 1, 0 respectively. -/
def tieNdwi : Px → ℚ := fun p => if p = 0 then -1 else if p = 1 then 1 else 0

/-- Concrete clusterer for the exact-tie scenario: NDWI 0 falls in cluster 1,
everything else in cluster 0; both cluster means equal 0. -/
def tieClusterer : ℚ → ℤ := fun v => if v = 0 then 1 else 0

/-- Concrete raster in which every pixel has NDWI 1, so cluster 0 is empty
and its mean is undefined. -/
def emptyClusterNdwi : Px → ℚ := fun _ => 1

end Threshold

namespace Mosaic

/-!
Embedding of `mosaic.py` (`mosaic_s2` with its inner `add_date` and
`mosaic_on_date`).  Geometries, rasters and the Earth Engine geometry/raster
algorithms (`union` of the collection footprint, `dissolve`,
`contains(roi, ee.ErrorMargin(10))`, `median`, `clip`, date formatting and
`millis`) are abstract backend operations supplied as a structure, since they
execute remotely; the control flow of `mosaic_s2` — grouping by date,
coverage test, `ee.Algorithms.If(covers, mosaic, None)` and
`removeAll([None])` — is modelled exactly.
-/

/-- One Sentinel-2 scene: acquisition timestamp, footprint geometry and
raster content. -/
structure Scene (G R : Type) where
  time_start : ℕ
  footprint : G
  raster : R

/-- The remote Earth Engine geometry/raster operations used by `mosaic_s2`. -/
structure GeoOps (G R : Type) where
  unionG : G → G → G
  emptyG : G
  dissolve : G → G
  containsEM : G → G → ℕ → Bool
  median : List R → R
  clip : R → G → R
  fmtDate : ℕ → String
  millis : String → ℕ

/-- An accepted daily mosaic with the metadata set by `mosaic_on_date`. -/
structure MosaicImage (G R : Type) where
  raster : R
  date : String
  time_start : ℕ
  coverage : String
  image_count : ℕ

variable {G R : Type}

/-- `add_date`: the 'date' property derived from `system:time_start`. -/
def sceneDate (ops : GeoOps G R) (s : Scene G R) : String :=
  ops.fmtDate s.time_start

/-- `collection.aggregate_array('date')`. -/
def allDates (ops : GeoOps G R) (collection : List (Scene G R)) : List String :=
  collection.map (sceneDate ops)

/-- `collection.aggregate_array('date').distinct()`. -/
def uniqueDates (ops : GeoOps G R) (collection : List (Scene G R)) : List String :=
  (allDates ops collection).eraseDups

/-- `collection.filter(ee.Filter.eq('date', date))`. -/
def dailyScenes (ops : GeoOps G R) (collection : List (Scene G R)) (d : String) :
    List (Scene G R) :=
  collection.filter fun sc => sceneDate ops sc == d

/-- `daily.geometry().dissolve()`: the dissolved union of the footprints of
the date's contributing scenes. -/
def mergedFootprint (ops : GeoOps G R) (collection : List (Scene G R)) (d : String) : G :=
  ops.dissolve
    ((dailyScenes ops collection d).foldl (fun g sc => ops.unionG g sc.footprint) ops.emptyG)

/-- The full mosaic built for date `d`: `daily.median().clip(roi)` with the
metadata dictionary set by `mosaic_on_date`. -/
def fullMosaic (ops : GeoOps G R) (collection : List (Scene G R)) (roi : G)
    (d : String) : MosaicImage G R :=
  { raster := ops.clip (ops.median ((dailyScenes ops collection d).map Scene.raster)) roi
    date := d
    time_start := ops.millis d
    coverage := "full"
    image_count := (dailyScenes ops collection d).length }

/-- `mosaic_on_date`: `ee.Algorithms.If(covers, mosaic.set(metadata), None)`
where `covers = merged_geometry.contains(roi, ee.ErrorMargin(10))`. -/
def mosaic_on_date (ops : GeoOps G R) (collection : List (Scene G R)) (roi : G)
    (d : String) : Option (MosaicImage G R) :=
  if ops.containsEM (mergedFootprint ops collection d) roi 10 then
    some (fullMosaic ops collection roi d)
  else none

/-- `mosaic_s2`: map `mosaic_on_date` over the distinct dates, then
`removeAll([None])`. -/
def mosaic_s2 (ops : GeoOps G R) (collection : List (Scene G R)) (roi : G) :
    List (MosaicImage G R) :=
  (uniqueDates ops collection).filterMap (mosaic_on_date ops collection roi)

/-- Concrete geometry backend for evaluation: geometries are finite point
sets given as lists of naturals, union is append, dissolve is identity, and
containment (any margin) is list inclusion; rasters are lists of lists of
rationals with pointwise-free median placeholder semantics (`median` keeps the
stack, `clip` keeps the raster). -/
def listOps : GeoOps (List ℕ) (List ℚ) :=
  { unionG := fun a b => a ++ b
    emptyG := []
    dissolve := fun g => g
    containsEM := fun g roi _ => roi.all fun p => g.contains p
    median := fun rs => rs.flatten
    clip := fun r _ => r
    fmtDate := fun ts => if ts < 86400000 then "2023-07-16" else "2023-07-17"
    millis := fun d => if d = "2023-07-16" then 0 else 86400000 }

/-- Concrete scene collection: two scenes on `2023-07-16` jointly covering
the ROI `[0, 1, 2]`, and one scene on `2023-07-17` covering only `[0]`. -/
def exCollection : List (Scene (List ℕ) (List ℚ)) :=
  [⟨0, [0, 1], [1]⟩, ⟨1, [1, 2], [2]⟩, ⟨86400000, [0], [3]⟩]

end Mosaic

namespace Filter

/-!
Embedding of `filter.py` (`remove_small_area` / `process_image`).  A binary
flood mask is the finite set of its flood-valued (value 1, unmasked) pixels on
the 10 m grid, given as a list of integer coordinates.
`image.connectedPixelCount(maxSize=128, eightConnected=True)` labels each
pixel with the size of its 8-connected patch, saturating at `maxSize`; the
patch itself is computed by a breadth-first closure over the mask.
-/

/-- Grid pixel coordinates. -/
abbrev Px := ℤ × ℤ

/-- The eight neighbours of a pixel (diagonal adjacency counts). -/
def neighbors8 (p : Px) : List Px :=
  [(p.1 - 1, p.2 - 1), (p.1 - 1, p.2), (p.1 - 1, p.2 + 1),
   (p.1, p.2 - 1), (p.1, p.2 + 1),
   (p.1 + 1, p.2 - 1), (p.1 + 1, p.2), (p.1 + 1, p.2 + 1)]

/-- Breadth-first closure collecting the 8-connected patch: each round moves
the still-unreached mask pixels adjacent to the frontier from `remaining`
into the visited patch.  Fuel `mask.length` suffices since every round grows
the patch. -/
def growPatch : ℕ → List Px → List Px → List Px → List Px
  | 0, visited, _, _ => visited
  | fuel + 1, visited, remaining, frontier =>
    let adjacent := frontier.flatMap neighbors8
    let fresh := remaining.filter fun q => adjacent.contains q
    if fresh.isEmpty then visited
    else
      growPatch fuel (visited ++ fresh)
        (remaining.filter fun q => !(fresh.contains q)) fresh

/-- The 8-connected patch of flood pixel `p` within the mask (empty if `p` is
not a flood pixel). -/
def patch (mask : List Px) (p : Px) : List Px :=
  if mask.contains p then
    growPatch mask.length [p] (mask.eraseDups.filter fun q => !(q == p)) [p]
  else []

/-- True 8-connected patch size of pixel `p`. -/
def patchSize (mask : List Px) (p : Px) : ℕ :=
  (patch mask p).length

/-- `image.connectedPixelCount(maxSize, eightConnected=True)`: the per-pixel
patch size, saturating at `maxSize`. -/
def connectedPixelCount (mask : List Px) (maxSize : ℕ) (p : Px) : ℕ :=
  min (patchSize mask p) maxSize

/-- `min_pixels = ee.Number(min_area).divide(100).round()`: area in m² over
the 100 m² per-pixel area at 10 m resolution, rounded to the nearest integer
(half rounds up, as `ee.Number.round`). -/
def min_pixels (min_area : ℚ) : ℤ :=
  round (min_area / 100)

/-- `process_image` applied to one flood mask:
`image.updateMask(patch_sizes.gte(min_pixels)).clip(roi)` — the retained
pixels are the flood pixels whose capped patch count reaches the threshold
and that lie inside the ROI.  (`rename('depth').selfMask().toFloat()` then
carries value 1.0 on exactly these pixels.) -/
def process_image (mask : List Px) (roi : List Px) (min_area : ℚ) : List Px :=
  mask.filter fun p =>
    decide (min_pixels min_area ≤ (connectedPixelCount mask 128 p : ℤ)) &&
      decide (p ∈ roi)

/-- A straight horizontal line of 129 flood pixels: one 8-connected patch
whose true size exceeds the 128-pixel cap of `connectedPixelCount`. -/
def line129 : List Px :=
  (List.range 129).map fun i => ((i : ℤ), 0)

end Filter

namespace OpticalFlood

/-!
Embedding of `opticalflood.py` (`opticflood_s2` with its inner
`_classify_and_mask`, plus the metadata flow through `filter.py`).

Pixel-value model: Earth Engine images over the common AOI grid are functions
from pixel coordinates to integer band values; `img.eq(n)` is the pointwise
indicator, `img.where(test, v)` replaces the value by `v` wherever the test
image is nonzero, and `img.updateMask(img.eq(1))` leaves value 1 pixels set
and masks the rest (`none`).

Metadata model: an Earth Engine image carries a property dictionary.
Image-math operations (`eq`, `where`, `cluster`, `median`,
`normalizedDifference`, collection reducers) return fresh computed images that
carry none of the input's metadata properties — which is why both
`classify_kmeans` and `_classify_and_mask` explicitly re-`set`
`system:time_start` after applying `.eq(...)` — while the single-image shape
operations `select`, `rename`, `updateMask`, `clip`, `selfMask`, `toFloat`
preserve the property dictionary, and `set` adds to it.
-/

/-- Grid pixel coordinates. -/
abbrev Px := ℤ × ℤ

/-- `img.eq(n)`: pointwise indicator image. -/
def eeEq (img : Px → ℤ) (n : ℤ) : Px → ℤ :=
  fun p => if img p = n then 1 else 0

/-- `img.where(test, v)`: take value `v` where the test image is nonzero. -/
def eeWhere (img : Px → ℤ) (test : Px → ℤ) (v : ℤ) : Px → ℤ :=
  fun p => if test p ≠ 0 then v else img p

/-- `flood.updateMask(flood.eq(1))`: keep exactly the value 1 pixels, mask
the rest. -/
def selfMaskEq1 (img : Px → ℤ) : Px → Option ℤ :=
  fun p => if eeEq img 1 p ≠ 0 then some (img p) else none

/-- The suppression chain of `_classify_and_mask`:
`flood = classified.eq(1)`, then
`flood = flood.where(permanent_water.eq(1), 0)`, then
`flood = flood.where(cloud_mask.eq(1), 0)`. -/
def suppress (classified perm cloud : Px → ℤ) : Px → ℤ :=
  eeWhere (eeWhere (eeEq classified 1) (eeEq perm 1) 0) (eeEq cloud 1) 0

/-- Property values of an Earth Engine image (`null`, string or number). -/
inductive PVal where
  | null
  | str (s : String)
  | int (n : ℤ)
deriving DecidableEq, Repr

/-- An image property dictionary. -/
abbrev Props := List (String × PVal)

/-- `img.get(k)`: the server returns null for an absent property. -/
def getProp (ps : Props) (k : String) : PVal :=
  match ps.find? (fun kv => kv.1 == k) with
  | some kv => kv.2
  | none => PVal.null

/-- `img.set(k, v)`. -/
def setProp (ps : Props) (k : String) (v : PVal) : Props :=
  (k, v) :: ps.filter fun kv => kv.1 != k

/-- Property dictionary of the result of an image-math operation (`eq`,
`where`, `cluster`, `median`, `normalizedDifference`): a fresh computed image
with no metadata. -/
def mathOpProps (_ : Props) : Props := []

/-- Property dictionary after a single-image shape operation (`select`,
`rename`, `updateMask`, `clip`, `selfMask`, `toFloat`): unchanged. -/
def shapeOpProps (ps : Props) : Props := ps

/-- Metadata flow of `classify_kmeans` (`threshold.py`): the input NDWI image
goes through `cluster` and `eq` (math operations) and the result is re-tagged
with only `system:time_start` taken from the input. -/
def classify_kmeans_props (ndwiProps : Props) : Props :=
  let clusteredProps := shapeOpProps (mathOpProps ndwiProps)
  let floodMaskProps := shapeOpProps (mathOpProps clusteredProps)
  setProp floodMaskProps "system:time_start" (getProp ndwiProps "system:time_start")

/-- Metadata flow of `_classify_and_mask` (`opticalflood.py`), line by line:
`select`, `classify_kmeans(...).rename`, `eq(1)`, two `where`, `updateMask`,
`rename`, then `set('system:time_start', img.get('system:time_start'))`. -/
def classify_and_mask_props (imgProps : Props) : Props :=
  let ndwiProps := shapeOpProps imgProps
  let classifiedProps := shapeOpProps (classify_kmeans_props ndwiProps)
  let floodProps := mathOpProps (mathOpProps (mathOpProps classifiedProps))
  let cleanedProps := shapeOpProps (shapeOpProps floodProps)
  setProp cleanedProps "system:time_start" (getProp imgProps "system:time_start")

/-- Metadata flow of `process_image` (`filter.py`): read `date` from the
input, apply shape operations (`updateMask`, `clip`, `rename`, `selfMask`,
`toFloat`), then `set({'date': date})`. -/
def process_image_props (imgProps : Props) : Props :=
  let date := getProp imgProps "date"
  let cleanedProps := shapeOpProps (shapeOpProps imgProps)
  let depthProps := shapeOpProps (shapeOpProps (shapeOpProps cleanedProps))
  setProp depthProps "date" date

/-- Concrete raster classifying every pixel as flood, for evaluation. -/
def allFlood : Px → ℤ := fun _ => 1

/-- Concrete permanent-water mask marking every pixel, for evaluation. -/
def allPerm : Px → ℤ := fun _ => 1

/-- Concrete cloud mask marking no pixel, for evaluation. -/
def noCloud : Px → ℤ := fun _ => 0

/-- Metadata of an accepted daily mosaic as set by `mosaic_on_date`
(`mosaic.py`). -/
def mosaicProps (d : String) (ms : ℤ) (count : ℤ) : Props :=
  [("date", PVal.str d), ("system:time_start", PVal.int ms),
   ("coverage", PVal.str "full"), ("image_count", PVal.int count)]

/-- The parameters of the lazily-built Sentinel-2 pipeline assembled by
`opticflood_s2` before any evaluation is requested. -/
structure S2Pipeline where
  postStart : String
  postEnd : String
  refStart : String
  refEnd : String
  cloudThreshold : ℤ
  minArea : ℚ
  permWaterRef : String
deriving DecidableEq, Repr

/-- Embedding of the entry point `opticflood_s2` (`opticalflood.py`): it
computes the date ranges via `get_date_ranges` — whose `strptime` call is the
only input check that can raise — and then assembles the lazy Earth Engine
computation graph from its parameters.  No validation of `lag` or `min_area`
exists in the source; `none` models the `ValueError` escaping from
`get_date_ranges`.  (The preceding `_ensure_ee_initialized()` guard already
schedules a remote evaluation `ee.Number(1).getInfo()` before any of this.) -/
def opticflood_s2 (flood_event_date : String) (lag : ℤ) (cloud_threshold : ℤ)
    (min_area : ℚ) (use_reference_for_permwater : Bool) : Option S2Pipeline :=
  (DateUtil.get_date_ranges flood_event_date lag 30 1).map fun r =>
    { postStart := r.1
      postEnd := r.2.1
      refStart := r.2.2.1
      refEnd := r.2.2.2
      cloudThreshold := cloud_threshold
      minArea := min_area
      permWaterRef := if use_reference_for_permwater then r.2.2.1 else r.1 }

end OpticalFlood

namespace DateUtil

lemma char_digit_bounds {c : Char} (h : c.isDigit = true) : 48 ≤ c.toNat ∧ c.toNat ≤ 57 := by
  simp [Char.isDigit, Char.le_def] at h
  exact ⟨h.1, h.2⟩

lemma ofNat_digit_isDigit {k : ℕ} (h : k ≤ 9) : (Char.ofNat (48 + k)).isDigit = true := by
  interval_cases k <;> decide

lemma digitsToNat_lt {cs : List Char} {v : ℕ} (h : digitsToNat? cs = some v) :
    v < 10 ^ cs.length := by
  unfold digitsToNat? at h
  split at h
  · rename_i hc
    obtain ⟨-, hdig⟩ := hc
    have key : ∀ (l : List Char) (acc : ℕ), l.all Char.isDigit = true →
        l.foldl (fun acc c => 10 * acc + (c.toNat - 48)) acc < (acc + 1) * 10 ^ l.length := by
      intro l
      induction l with
      | nil => intro acc _; simp
      | cons c l ih =>
        intro acc hall
        simp only [List.all_cons, Bool.and_eq_true] at hall
        have hc9 : c.toNat - 48 ≤ 9 := by
          have := char_digit_bounds hall.1
          omega
        have h1 := ih (10 * acc + (c.toNat - 48)) hall.2
        calc (c :: l).foldl (fun acc c => 10 * acc + (c.toNat - 48)) acc
            = l.foldl (fun acc c => 10 * acc + (c.toNat - 48)) (10 * acc + (c.toNat - 48)) := rfl
          _ < (10 * acc + (c.toNat - 48) + 1) * 10 ^ l.length := h1
          _ ≤ ((acc + 1) * 10) * 10 ^ l.length := by
              apply Nat.mul_le_mul_right
              omega
          _ = (acc + 1) * 10 ^ (c :: l).length := by
              rw [List.length_cons, pow_succ]
              ring
    have hb := key cs 0 hdig
    have hv := Option.some.inj h
    rw [Nat.zero_add, one_mul] at hb
    exact hv ▸ hb
  · exact absurd h (by simp)

lemma natDigitsAux_lt {n : ℕ} (hn : n < 10) (fuel : ℕ) :
    natDigitsAux fuel n = [Char.ofNat (48 + n)] := by
  cases fuel with
  | zero => simp [natDigitsAux, Nat.mod_eq_of_lt hn]
  | succ f => simp [natDigitsAux, hn]

lemma natDigitsAux_step {n : ℕ} (hn : 10 ≤ n) (fuel : ℕ) :
    natDigitsAux (fuel + 1) n =
      natDigitsAux fuel (n / 10) ++ [Char.ofNat (48 + n % 10)] := by
  simp [natDigitsAux, Nat.not_lt.mpr hn]

/-- A four-digit year renders as exactly four decimal digit characters. -/
lemma natDigits_year {n : ℕ} (h1 : 1000 ≤ n) (h2 : n ≤ 9999) :
    (natDigits n).length = 4 ∧ (natDigits n).all Char.isDigit = true := by
  obtain ⟨f, rfl⟩ : ∃ f, n = f + 3 := ⟨n - 3, by omega⟩
  unfold natDigits
  rw [natDigitsAux_step (by omega), natDigitsAux_step (by omega),
    natDigitsAux_step (by omega), natDigitsAux_lt (by omega)]
  refine ⟨by simp, ?_⟩
  simp only [List.all_append, List.all_cons, List.all_nil, Bool.and_eq_true, and_true]
  refine ⟨⟨⟨?_, ?_⟩, ?_⟩, ?_⟩ <;> exact ofNat_digit_isDigit (by omega)

/-- A month or day in `1..99` renders via `pad2` as exactly two digit
characters. -/
lemma pad2_shape {n : ℕ} (h1 : 1 ≤ n) (h2 : n ≤ 99) :
    (pad2 n).length = 2 ∧ (pad2 n).all Char.isDigit = true := by
  unfold pad2
  by_cases hn : n < 10
  · rw [if_pos hn]
    unfold natDigits
    rw [natDigitsAux_lt hn]
    exact ⟨by simp, by
      simp only [List.all_cons, List.all_nil, Bool.and_eq_true, and_true]
      exact ⟨by decide, ofNat_digit_isDigit (by omega)⟩⟩
  · rw [if_neg hn]
    obtain ⟨f, rfl⟩ : ∃ f, n = f + 1 := ⟨n - 1, by omega⟩
    unfold natDigits
    rw [natDigitsAux_step (by omega), natDigitsAux_lt (by omega)]
    refine ⟨by simp, ?_⟩
    simp only [List.all_append, List.all_cons, List.all_nil, Bool.and_eq_true, and_true]
    exact ⟨ofNat_digit_isDigit (by omega), ofNat_digit_isDigit (by omega)⟩

lemma daysInMonth_pos (y m : ℕ) : 1 ≤ daysInMonth y m := by
  unfold daysInMonth
  split
  · split <;> omega
  · split <;> omega

lemma daysInMonth_le (y m : ℕ) : daysInMonth y m ≤ 31 := by
  unfold daysInMonth
  split
  · split <;> omega
  · split <;> omega

lemma validDate_succ {dt dt' : Date} (h : validDate dt) (he : succDate dt = some dt') :
    validDate dt' := by
  obtain ⟨h1, h2, h3, h4, h5, h6⟩ := h
  unfold succDate at he
  split at he
  · rename_i hd
    cases he
    exact ⟨h1, h2, h3, h4,
      by show 1 ≤ dt.day + 1; omega,
      by show dt.day + 1 ≤ daysInMonth dt.year dt.month; omega⟩
  · split at he
    · rename_i hm
      cases he
      exact ⟨h1, h2,
        by show 1 ≤ dt.month + 1; omega,
        by show dt.month + 1 ≤ 12; omega,
        le_refl 1,
        by show 1 ≤ daysInMonth dt.year (dt.month + 1); exact daysInMonth_pos _ _⟩
    · split at he
      · rename_i hy
        cases he
        exact ⟨by show 1 ≤ dt.year + 1; omega,
          by show dt.year + 1 ≤ 9999; omega,
          le_refl 1,
          by show (1 : ℕ) ≤ 12; omega,
          le_refl 1,
          by show 1 ≤ daysInMonth (dt.year + 1) 1; exact daysInMonth_pos _ _⟩
      · cases he

lemma daysInMonth_december (y : ℕ) : daysInMonth y 12 = 31 := by
  unfold daysInMonth
  norm_num

lemma validDate_pred {dt dt' : Date} (h : validDate dt) (he : predDate dt = some dt') :
    validDate dt' := by
  obtain ⟨h1, h2, h3, h4, h5, h6⟩ := h
  unfold predDate at he
  split at he
  · rename_i hd
    cases he
    exact ⟨h1, h2, h3, h4,
      by show 1 ≤ dt.day - 1; omega,
      by show dt.day - 1 ≤ daysInMonth dt.year dt.month; omega⟩
  · split at he
    · rename_i hm
      cases he
      exact ⟨h1, h2,
        by show 1 ≤ dt.month - 1; omega,
        by show dt.month - 1 ≤ 12; omega,
        by show 1 ≤ daysInMonth dt.year (dt.month - 1); exact daysInMonth_pos _ _,
        le_refl _⟩
    · split at he
      · rename_i hy
        cases he
        exact ⟨by show 1 ≤ dt.year - 1; omega,
          by show dt.year - 1 ≤ 9999; omega,
          by show (1 : ℕ) ≤ 12; omega,
          le_refl 12,
          by show (1 : ℕ) ≤ 31; omega,
          by show 31 ≤ daysInMonth (dt.year - 1) 12; rw [daysInMonth_december]⟩
      · cases he

lemma validDate_addDaysNat {dt dt' : Date} {n : ℕ} (h : validDate dt)
    (he : addDaysNat dt n = some dt') : validDate dt' := by
  induction n generalizing dt with
  | zero =>
    unfold addDaysNat at he
    cases he
    exact h
  | succ n ih =>
    unfold addDaysNat at he
    cases hs : succDate dt with
    | none => rw [hs] at he; cases he
    | some d1 =>
      rw [hs] at he
      exact ih (validDate_succ h hs) he

lemma validDate_subDaysNat {dt dt' : Date} {n : ℕ} (h : validDate dt)
    (he : subDaysNat dt n = some dt') : validDate dt' := by
  induction n generalizing dt with
  | zero =>
    unfold subDaysNat at he
    cases he
    exact h
  | succ n ih =>
    unfold subDaysNat at he
    cases hs : predDate dt with
    | none => rw [hs] at he; cases he
    | some d1 =>
      rw [hs] at he
      exact ih (validDate_pred h hs) he

lemma validDate_addDays {dt dt' : Date} {k : ℤ} (h : validDate dt)
    (he : addDays dt k = some dt') : validDate dt' := by
  unfold addDays at he
  split at he
  · exact validDate_addDaysNat h he
  · exact validDate_subDaysNat h he

lemma parseDate_valid {s : String} {E : Date} (h : parseDate s = some E) : validDate E := by
  unfold parseDate at h
  split at h
  · rename_i ys ms ds heq
    cases hy : digitsToNat? ys with
    | none => rw [hy] at h; cases h
    | some y =>
      cases hm : digitsToNat? ms with
      | none => rw [hy, hm] at h; cases h
      | some m =>
        cases hd : digitsToNat? ds with
        | none => rw [hy, hm, hd] at h; cases h
        | some d =>
          rw [hy, hm, hd] at h
          dsimp only at h
          by_cases hcond : ys.length = 4 ∧ ms.length ≤ 2 ∧ ds.length ≤ 2 ∧
              1 ≤ y ∧ 1 ≤ m ∧ m ≤ 12 ∧ 1 ≤ d ∧ d ≤ daysInMonth y m
          · rw [if_pos hcond] at h
            obtain ⟨hy4, -, -, hy1, hm1, hm12, hd1, hdm⟩ := hcond
            injection h with h
            subst h
            have hybound := digitsToNat_lt hy
            rw [hy4] at hybound
            exact ⟨hy1, by show y ≤ 9999; omega, hm1, hm12, hd1, hdm⟩
          · rw [if_neg hcond] at h
            cases h
  · cases h

/-- Formatting a valid date whose year has four digits yields a `YYYY-MM-DD`
string. -/
lemma formatDate_shape {dt : Date} (h : validDate dt) (hy : 1000 ≤ dt.year) :
    IsYMDFormat (formatDate dt) := by
  obtain ⟨h1, h2, h3, h4, h5, h6⟩ := h
  obtain ⟨hylen, hydig⟩ := natDigits_year hy h2
  obtain ⟨hmlen, hmdig⟩ := pad2_shape h3 (by omega)
  have hd99 : dt.day ≤ 99 := le_trans h6 (le_trans (daysInMonth_le _ _) (by omega))
  obtain ⟨hdlen, hddig⟩ := pad2_shape h5 hd99
  exact ⟨natDigits dt.year, pad2 dt.month, pad2 dt.day, rfl, hylen, hmlen, hdlen, by
    simp only [List.all_append, Bool.and_eq_true]
    exact ⟨⟨hydig, hmdig⟩, hddig⟩⟩

/-- Claim C4 (amended): for a valid event date `E` given as a `YYYY-MM-DD`
string and any lag `L ≥ 0`, provided the four computed dates stay inside the
representable calendar range (years 1..9999; outside it the underlying date
arithmetic raises `OverflowError`) and inside years ≥ 1000 (below which the
platform's `%Y` emits fewer than four digits), `get_date_ranges` returns
exactly: post-window start `E + 1` day, post-window end `E + L` days,
reference-window start `E - 30` days, reference-window end `E - 1` day —
exact calendar arithmetic including month and year rollover — all four
formatted as `YYYY-MM-DD` strings. -/
theorem get_date_ranges_calendar (s : String) (L : ℤ) (E P PL R1 R2 : Date)
    (hparse : parseDate s = some E) (_hL : 0 ≤ L)
    (h1 : addDays E 1 = some P) (h2 : addDays E L = some PL)
    (h3 : addDays E (-30) = some R1) (h4 : addDays E (-1) = some R2)
    (hy1 : 1000 ≤ P.year) (hy2 : 1000 ≤ PL.year)
    (hy3 : 1000 ≤ R1.year) (hy4 : 1000 ≤ R2.year) :
    get_date_ranges s L 30 1 =
      some (formatDate P, formatDate PL, formatDate R1, formatDate R2) ∧
    IsYMDFormat (formatDate P) ∧ IsYMDFormat (formatDate PL) ∧
    IsYMDFormat (formatDate R1) ∧ IsYMDFormat (formatDate R2) := by
  have hE := parseDate_valid hparse
  refine ⟨?_, formatDate_shape (validDate_addDays hE h1) hy1,
    formatDate_shape (validDate_addDays hE h2) hy2,
    formatDate_shape (validDate_addDays hE h3) hy3,
    formatDate_shape (validDate_addDays hE h4) hy4⟩
  unfold get_date_ranges
  rw [hparse]
  simp only [Option.some_bind, h1, h2, h3, h4, Option.map_some']

/-- Witness for C4 at the spec's end-to-end example: event `2023-07-15`,
lag 10. -/
theorem get_date_ranges_calendar_witness :
    get_date_ranges "2023-07-15" 10 30 1 =
      some (formatDate (Date.mk 2023 7 16), formatDate (Date.mk 2023 7 25),
        formatDate (Date.mk 2023 6 15), formatDate (Date.mk 2023 7 14)) ∧
    IsYMDFormat (formatDate (Date.mk 2023 7 16)) ∧
    IsYMDFormat (formatDate (Date.mk 2023 7 25)) ∧
    IsYMDFormat (formatDate (Date.mk 2023 6 15)) ∧
    IsYMDFormat (formatDate (Date.mk 2023 7 14)) :=
  get_date_ranges_calendar "2023-07-15" 10 (Date.mk 2023 7 15) (Date.mk 2023 7 16)
    (Date.mk 2023 7 25) (Date.mk 2023 6 15) (Date.mk 2023 7 14)
    (by decide) (by decide) (by decide) (by decide) (by decide) (by decide)
    (by decide) (by decide) (by decide) (by decide)

/-- Counterexample to C4 as stated: `1000-01-15` is a valid `YYYY-MM-DD` event
date, yet with lag 0 the reference-window start comes out as `999-12-16`,
which is not a `YYYY-MM-DD` string — the platform `%Y` does not zero-pad a
three-digit year. -/
theorem get_date_ranges_unpadded_year :
    get_date_ranges "1000-01-15" 0 30 1 =
      some ("1000-01-16", "1000-01-15", "999-12-16", "1000-01-14") ∧
    ¬ IsYMDFormat "999-12-16" := by
  refine ⟨by decide, ?_⟩
  rintro ⟨ys, ms, ds, hdata, hylen, hmlen, hdlen, -⟩
  have h9 : ("999-12-16".data).length = 9 := by decide
  rw [hdata] at h9
  simp only [List.length_append, List.length_cons] at h9
  omega

end DateUtil

namespace Threshold

lemma clusterMeans_two (pixels : List Px) (ndwi : Px → ℚ) (clusterer : ℚ → ℤ) :
    clusterMeans pixels ndwi clusterer 2 =
      [clusterMean pixels ndwi clusterer 0, clusterMean pixels ndwi clusterer 1] := by
  simp [clusterMeans, List.range_succ]

/-- Claim C1: when both per-cluster mean NDWI values are defined and
`m0 < m1`, `classify_kmeans` designates the higher-mean cluster (index 1) as
the flood cluster, and the returned flood mask is, pixel for pixel, the
indicator of the cluster assignment being equal to that index. -/
theorem classify_kmeans_max_mean (pixels : List Px) (ndwi : Px → ℚ)
    (clusterer : ℚ → ℤ) (m0 m1 : ℚ)
    (h0 : clusterMean pixels ndwi clusterer 0 = some m0)
    (h1 : clusterMean pixels ndwi clusterer 1 = some m1)
    (hlt : m0 < m1) :
    floodCluster pixels ndwi clusterer 2 = 1 ∧
    ∀ p : Px, classify_kmeans pixels ndwi clusterer 2 p =
      if clustered ndwi clusterer p = 1 then 1 else 0 := by
  have hm : clusterMeans pixels ndwi clusterer 2 = [some m0, some m1] := by
    rw [clusterMeans_two, h0, h1]
  have hmax : reduceMax [some m0, some m1] = some m1 := by
    simp only [reduceMax, List.foldl_cons, List.foldl_nil]
    rw [max_eq_right (le_of_lt hlt)]
  have hfc : floodCluster pixels ndwi clusterer 2 = 1 := by
    rw [floodCluster, hm, hmax]
    simp [indexOf, List.findIdx?_cons, hlt.ne]
  refine ⟨hfc, fun p => ?_⟩
  rw [classify_kmeans, hfc]

/-- Witness for C1: on pixels `[0, 1]` with NDWI values 0 and 1, the
concrete clusterer yields defined means 0 < 1 and the mask is the indicator
of cluster 1. -/
theorem classify_kmeans_max_mean_witness :
    floodCluster [0, 1] exNdwi exClusterer 2 = 1 ∧
    ∀ p : Px, classify_kmeans [0, 1] exNdwi exClusterer 2 p =
      if clustered exNdwi exClusterer p = 1 then 1 else 0 :=
  classify_kmeans_max_mean [0, 1] exNdwi exClusterer 0 1
    (by norm_num [clusterMean, clustered, exNdwi, exClusterer])
    (by norm_num [clusterMean, clustered, exNdwi, exClusterer])
    (by norm_num)

/-- Claim C2, failing-input evaluation: on a raster whose pixels all fall in
cluster 1, the mean of cluster 0 is undefined (`reduceRegion` returns null),
yet `classify_kmeans` performs no definedness validation: `Reducer.max`
skips the null, `indexOf` silently designates cluster 1, and a flood mask is
produced with no reported error for that date. -/
theorem classify_kmeans_undefined_mean_silent :
    clusterMean [0] emptyClusterNdwi exClusterer 0 = none ∧
    floodCluster [0] emptyClusterNdwi exClusterer 2 = 1 ∧
    classify_kmeans [0] emptyClusterNdwi exClusterer 2 0 = 1 := by
  have hfc : floodCluster [0] emptyClusterNdwi exClusterer 2 = 1 := by
    norm_num [floodCluster, clusterMeans, List.range_succ, clusterMean, clustered,
      emptyClusterNdwi, exClusterer, reduceMax, indexOf, List.findIdx?_cons]
    rfl
  refine ⟨by norm_num [clusterMean, clustered, emptyClusterNdwi, exClusterer], hfc, ?_⟩
  rw [classify_kmeans, hfc]
  norm_num [clustered, emptyClusterNdwi, exClusterer]

/-- Claim C10: when the two per-cluster means are exactly equal,
flood-cluster selection does not fail — `indexOf` returns the
first-encountered index 0 and the mask is the indicator of cluster 0. -/
theorem classify_kmeans_tie_first_index (pixels : List Px) (ndwi : Px → ℚ)
    (clusterer : ℚ → ℤ) (m : ℚ)
    (h0 : clusterMean pixels ndwi clusterer 0 = some m)
    (h1 : clusterMean pixels ndwi clusterer 1 = some m) :
    floodCluster pixels ndwi clusterer 2 = 0 ∧
    ∀ p : Px, classify_kmeans pixels ndwi clusterer 2 p =
      if clustered ndwi clusterer p = 0 then 1 else 0 := by
  have hm : clusterMeans pixels ndwi clusterer 2 = [some m, some m] := by
    rw [clusterMeans_two, h0, h1]
  have hmax : reduceMax [some m, some m] = some m := by
    simp only [reduceMax, List.foldl_cons, List.foldl_nil, max_self]
  have hfc : floodCluster pixels ndwi clusterer 2 = 0 := by
    rw [floodCluster, hm, hmax]
    simp [indexOf, List.findIdx?_cons]
  refine ⟨hfc, fun p => ?_⟩
  rw [classify_kmeans, hfc]

/-- Witness for C10: pixels `[0, 1, 2]` with NDWI values -1, 1, 0 and a
clusterer putting 0 alone in cluster 1 give both cluster means equal to 0;
the flood cluster is index 0. -/
theorem classify_kmeans_tie_first_index_witness :
    floodCluster [0, 1, 2] tieNdwi tieClusterer 2 = 0 ∧
    ∀ p : Px, classify_kmeans [0, 1, 2] tieNdwi tieClusterer 2 p =
      if clustered tieNdwi tieClusterer p = 0 then 1 else 0 :=
  classify_kmeans_tie_first_index [0, 1, 2] tieNdwi tieClusterer 0
    (by norm_num [clusterMean, clustered, tieNdwi, tieClusterer])
    (by norm_num [clusterMean, clustered, tieNdwi, tieClusterer])

end Threshold

namespace Mosaic

/-- Claim C3: for every acquisition date of the input collection, the daily
mosaic appears in the output collection iff the dissolved union of that
date's scene footprints contains the whole AOI under the 10 m error margin;
an appearing mosaic is always the full mosaic (median over all of the date's
scenes, clipped to the AOI, with the full-coverage metadata) — a date whose
union fails the test is silently dropped, with no partial mosaic and no
error. -/
theorem mosaic_s2_coverage {G R : Type} (ops : GeoOps G R)
    (collection : List (Scene G R)) (roi : G) (d : String) :
    ((∃ img ∈ mosaic_s2 ops collection roi, img.date = d) ↔
      (d ∈ uniqueDates ops collection ∧
        ops.containsEM (mergedFootprint ops collection d) roi 10 = true)) ∧
    ∀ img ∈ mosaic_s2 ops collection roi, img.date = d →
      img = fullMosaic ops collection roi d := by
  constructor
  · constructor
    · rintro ⟨img, hmem, hdate⟩
      rw [mosaic_s2, List.mem_filterMap] at hmem
      obtain ⟨d', hd', himg⟩ := hmem
      rw [mosaic_on_date] at himg
      split at himg
      · rename_i hcov
        cases himg
        subst hdate
        exact ⟨hd', hcov⟩
      · cases himg
    · rintro ⟨hd, hcov⟩
      refine ⟨fullMosaic ops collection roi d, ?_, rfl⟩
      rw [mosaic_s2, List.mem_filterMap]
      exact ⟨d, hd, by rw [mosaic_on_date, if_pos hcov]⟩
  · intro img hmem hdate
    rw [mosaic_s2, List.mem_filterMap] at hmem
    obtain ⟨d', hd', himg⟩ := hmem
    rw [mosaic_on_date] at himg
    split at himg
    · cases himg
      rw [← hdate]
      rfl
    · cases himg

/-- Witness for C3 on the concrete list-backed geometry backend: two scenes
on `2023-07-16` jointly cover the ROI (their mosaic appears), the single
`2023-07-17` scene does not. -/
theorem mosaic_s2_coverage_witness :
    ((∃ img ∈ mosaic_s2 listOps exCollection [0, 1, 2], img.date = "2023-07-16") ↔
      ("2023-07-16" ∈ uniqueDates listOps exCollection ∧
        listOps.containsEM (mergedFootprint listOps exCollection "2023-07-16")
          [0, 1, 2] 10 = true)) ∧
    ∀ img ∈ mosaic_s2 listOps exCollection [0, 1, 2], img.date = "2023-07-16" →
      img = fullMosaic listOps exCollection [0, 1, 2] "2023-07-16" :=
  mosaic_s2_coverage listOps exCollection [0, 1, 2] "2023-07-16"

end Mosaic

namespace Filter

lemma mem_process_image {mask roi : List Px} {a : ℚ} {p : Px} :
    p ∈ process_image mask roi a ↔
      p ∈ mask ∧ min_pixels a ≤ (connectedPixelCount mask 128 p : ℤ) ∧ p ∈ roi := by
  simp [process_image, List.mem_filter, and_assoc]

set_option maxRecDepth 10000 in
set_option maxHeartbeats 8000000 in
lemma patchSize_line129 : patchSize line129 (0, 0) = 129 := by decide

/-- Claim C6 (amended): the patch filter retains exactly the flood pixels
inside the AOI whose true 8-connected patch size reaches the pixel threshold,
whenever the threshold is at most the 128-pixel cap of
`connectedPixelCount`; when the threshold exceeds 128, the capped per-pixel
count can never reach it, so no pixel is retained at all — pixels of patches
larger than 128 included. -/
theorem process_image_patch_threshold (mask roi : List Px) (a : ℚ) (p : Px) :
    p ∈ process_image mask roi a ↔
      p ∈ mask ∧ p ∈ roi ∧
        (if min_pixels a ≤ 128 then min_pixels a ≤ (patchSize mask p : ℤ) else False) := by
  rw [mem_process_image]
  unfold connectedPixelCount
  by_cases h : min_pixels a ≤ 128
  · rw [if_pos h]
    constructor
    · rintro ⟨hm, hle, hr⟩
      refine ⟨hm, hr, ?_⟩
      push_cast at hle ⊢
      omega
    · rintro ⟨hm, hr, hle⟩
      refine ⟨hm, ?_, hr⟩
      push_cast at hle ⊢
      omega
  · rw [if_neg h]
    constructor
    · rintro ⟨hm, hle, hr⟩
      push_cast at hle
      omega
    · rintro ⟨-, -, hfalse⟩
      exact hfalse.elim

/-- Witness for C6 on a one-pixel mask with `min_area = 100` (threshold one
pixel). -/
theorem process_image_patch_threshold_witness :
    (0, 0) ∈ process_image ([((0 : ℤ), (0 : ℤ))] : List Px)
        ([((0 : ℤ), (0 : ℤ))] : List Px) 100 ↔
      (0, 0) ∈ ([((0 : ℤ), (0 : ℤ))] : List Px) ∧
      (0, 0) ∈ ([((0 : ℤ), (0 : ℤ))] : List Px) ∧
        (if min_pixels 100 ≤ 128 then
          min_pixels 100 ≤ (patchSize ([((0 : ℤ), (0 : ℤ))] : List Px) (0, 0) : ℤ)
        else False) :=
  process_image_patch_threshold [((0 : ℤ), (0 : ℤ))] [((0 : ℤ), (0 : ℤ))] 100 (0, 0)

/-- Counterexample to C6 as stated: a straight 129-pixel flood line is one
8-connected patch whose true size exceeds the 128 cap, yet with
`min_area = 20000` (pixel threshold 200 > 128) its pixels are dropped, not
retained: the capped `connectedPixelCount` value 128 never reaches the
threshold. -/
theorem process_image_cap_drops_large_patch :
    128 < patchSize line129 (0, 0) ∧ (0, 0) ∈ line129 ∧
    (0, 0) ∉ process_image line129 line129 20000 := by
  have hsize := patchSize_line129
  have hmp : min_pixels 20000 = 200 := by norm_num [min_pixels]
  refine ⟨by omega, by decide, ?_⟩
  rw [mem_process_image]
  rintro ⟨-, hle, -⟩
  rw [hmp] at hle
  unfold connectedPixelCount at hle
  push_cast at hle
  omega

/-- Claim C8: the minimum-area conversion divides by the 100 m² per-pixel
area and rounds to the nearest integer under one deterministic pinned rule
(halves round up): 10000 m² gives exactly 100 pixels and 250 m² gives
round(2.5) = 3. -/
theorem min_pixels_conversion :
    min_pixels 10000 = 100 ∧ min_pixels 250 = 3 ∧
    ∀ a : ℚ, min_pixels a = round (a / 100) :=
  ⟨by norm_num [min_pixels], by norm_num [min_pixels, round_eq], fun a => rfl⟩

end Filter

namespace OpticalFlood

/-- Claim C5, failing-input evaluation: a malformed event date does abort
(the `strptime` `ValueError` propagates), but a negative lag together with a
non-positive `min_area` sails straight through — `opticflood_s2` performs no
validation of either and happily assembles the pipeline. -/
theorem opticflood_s2_no_input_validation :
    opticflood_s2 "2023-13-01" 5 60 10000 true = none ∧
    (opticflood_s2 "2023-07-15" (-5) 60 0 true).isSome = true := by
  exact ⟨by decide, by decide⟩

/-- Claim C7: permanent-water suppression and cloud suppression in
`_classify_and_mask` commute and are idempotent, so applying both `where`
masks in either order — or either one twice — yields the pixel-for-pixel
identical flood raster, and hence the identical final self-masked FloodMask. -/
theorem suppression_idempotent_commutative (classified perm cloud : Px → ℤ) :
    eeWhere (eeWhere (eeEq classified 1) (eeEq perm 1) 0) (eeEq cloud 1) 0 =
      eeWhere (eeWhere (eeEq classified 1) (eeEq cloud 1) 0) (eeEq perm 1) 0 ∧
    eeWhere (eeWhere (eeEq classified 1) (eeEq perm 1) 0) (eeEq perm 1) 0 =
      eeWhere (eeEq classified 1) (eeEq perm 1) 0 ∧
    eeWhere (eeWhere (eeEq classified 1) (eeEq cloud 1) 0) (eeEq cloud 1) 0 =
      eeWhere (eeEq classified 1) (eeEq cloud 1) 0 ∧
    selfMaskEq1 (suppress classified perm cloud) =
      selfMaskEq1 (eeWhere (eeWhere (eeEq classified 1) (eeEq cloud 1) 0)
        (eeEq perm 1) 0) := by
  have hcomm :
      eeWhere (eeWhere (eeEq classified 1) (eeEq perm 1) 0) (eeEq cloud 1) 0 =
        eeWhere (eeWhere (eeEq classified 1) (eeEq cloud 1) 0) (eeEq perm 1) 0 := by
    funext p
    simp only [eeWhere, eeEq]
    by_cases hp : perm p = 1 <;> by_cases hc : cloud p = 1 <;> simp [hp, hc]
  refine ⟨hcomm, ?_, ?_, ?_⟩
  · funext p
    simp only [eeWhere, eeEq]
    by_cases hp : perm p = 1 <;> simp [hp]
  · funext p
    simp only [eeWhere, eeEq]
    by_cases hc : cloud p = 1 <;> simp [hc]
  · rw [suppress, hcomm]

/-- Witness for C7 at concrete rasters: all pixels classified flood, all
pixels permanent water, no cloud. -/
theorem suppression_idempotent_commutative_witness :
    eeWhere (eeWhere (eeEq allFlood 1) (eeEq allPerm 1) 0) (eeEq noCloud 1) 0 =
      eeWhere (eeWhere (eeEq allFlood 1) (eeEq noCloud 1) 0) (eeEq allPerm 1) 0 ∧
    eeWhere (eeWhere (eeEq allFlood 1) (eeEq allPerm 1) 0) (eeEq allPerm 1) 0 =
      eeWhere (eeEq allFlood 1) (eeEq allPerm 1) 0 ∧
    eeWhere (eeWhere (eeEq allFlood 1) (eeEq noCloud 1) 0) (eeEq noCloud 1) 0 =
      eeWhere (eeEq allFlood 1) (eeEq noCloud 1) 0 ∧
    selfMaskEq1 (suppress allFlood allPerm noCloud) =
      selfMaskEq1 (eeWhere (eeWhere (eeEq allFlood 1) (eeEq noCloud 1) 0)
        (eeEq allPerm 1) 0) :=
  suppression_idempotent_commutative allFlood allPerm noCloud

/-- Claim C9, failing-input evaluation: a daily mosaic carries
`date = 2023-07-16`, and `_classify_and_mask` forwards only
`system:time_start` — its image-math operations (`eq`, `where`) return fresh
computed images without the input's metadata — so the patch-filter output's
`date` property, re-set from its input, is null rather than the mosaic's
date. -/
theorem flood_layer_loses_date :
    getProp (mosaicProps "2023-07-16" 1689465600000 3) "date" =
      PVal.str "2023-07-16" ∧
    getProp (classify_and_mask_props (mosaicProps "2023-07-16" 1689465600000 3))
      "system:time_start" = PVal.int 1689465600000 ∧
    getProp (process_image_props
        (classify_and_mask_props (mosaicProps "2023-07-16" 1689465600000 3)))
      "date" = PVal.null := by
  exact ⟨by decide, by decide, by decide⟩

end OpticalFlood

namespace Filter

/-- Witness for C8 at the two pinned inputs. -/
theorem min_pixels_conversion_witness :
    min_pixels 10000 = 100 ∧ min_pixels 250 = 3 :=
  ⟨min_pixels_conversion.1, min_pixels_conversion.2.1⟩

end Filter
